import Mathlib

/-!
Verification development for the HeatShield backend core: the heat-index
calculator, the feature vectorizer, the risk-label synthesis rule, the
severity banding, the rule-based recommendation generator, and the symptom
triage analyzer, shallowly embedded from the Python source
(`data_fetcher.py`, `ml_model.py`).  Numeric values are modelled as
rationals; Python dictionaries with possibly missing keys are modelled as
structures of `Option` fields, a missing-key access becoming an
`Except.error`; advisory and alert message strings keep their informative
text with emoji prefixes dropped, and the two numbers interpolated into the
hydration message are carried as structured payload fields.
-/

namespace HeatShield

/-- Python truncation `int(x)` on a rational: rounds toward zero. -/
def pyInt (x : ℚ) : ℤ :=
  if 0 ≤ x then Int.floor x else Int.ceil x

/-- Rounding to one decimal place, modelling Python `round(x, 1)`
(tie behavior at exact half-ties is immaterial to the claims). -/
def round1 (x : ℚ) : ℚ :=
  (round (10 * x) : ℤ) / 10

/-- Heat-index calculator, embedded from
`DataFetcher._calculate_heat_index` (`data_fetcher.py` lines 112-134):
below 27 degrees the temperature is returned unchanged, otherwise the
Rothfusz regression polynomial is evaluated and rounded to one decimal. -/
def calculateHeatIndex (temperature humidity : ℚ) : ℚ :=
  if temperature < 27 then temperature
  else
    let T := temperature
    let RH := humidity
    let HI := (-8.78469475556 +
        1.61139411 * T +
        2.33854883889 * RH +
        -0.14611605 * T * RH +
        -0.012308094 * T * T +
        -0.0164248277778 * RH * RH +
        0.002211732 * T * T * RH +
        0.00072546 * T * RH * RH +
        -0.000003582 * T * T * RH * RH)
    round1 HI

/-- The nine-term Rothfusz regression polynomial exactly as the
specification writes it (coefficients in the order of spec section 4.1);
used to compare the spec wording against `calculateHeatIndex`. -/
def rothfuszPoly (T RH : ℚ) : ℚ :=
  -8.78469475556 + 1.61139411 * T + 2.33854883889 * RH
    - 0.14611605 * T * RH - 0.012308094 * T ^ 2 - 0.0164248277778 * RH ^ 2
    + 0.002211732 * T ^ 2 * RH + 0.00072546 * T * RH ^ 2
    - 0.000003582 * T ^ 2 * RH ^ 2

/-- Severity banding, embedded from
`RiskPredictionModel._get_severity_level` (`ml_model.py` lines 160-169). -/
def getSeverityLevel (riskScore : ℚ) : String :=
  if riskScore ≤ 2 then "Low"
  else if riskScore ≤ 5 then "Moderate"
  else if riskScore ≤ 7 then "High"
  else "Very High"

/-- Weather reading as a Python dict: every field a caller may omit is an
`Option`.  Only the four numeric fields read by the risk engine are kept. -/
structure WeatherDict where
  temperature : Option ℚ
  heat_index : Option ℚ
  humidity : Option ℚ
  uv_index : Option ℚ
deriving Repr, DecidableEq

/-- Air-quality reading as a Python dict, restricted to the two fields the
risk engine reads. -/
structure AqiDict where
  aqi : Option ℚ
  pm2_5 : Option ℚ
deriving Repr, DecidableEq

/-- User profile as a Python dict: the three fields the risk engine reads,
each possibly absent.  `health_conditions` is a possibly missing list whose
Python truthiness (non-empty) the code tests. -/
structure ProfileDict where
  age : Option ℚ
  outdoor_hours : Option ℚ
  health_conditions : Option (List String)
deriving Repr, DecidableEq

/-- Python `d[key]` on a possibly missing key: a present value is returned,
a missing one raises, modelled as `Except.error` (the ValidationError of
the specification's error taxonomy). -/
def requireField (o : Option ℚ) : Except String ℚ :=
  match o with
  | some v => Except.ok v
  | none => Except.error "ValidationError"

/-- Feature extraction, embedded from the feature list built at the top of
`RiskPredictionModel.predict_risk` (`ml_model.py` lines 128-138): six
mandatory dict accesses on the weather and air-quality readings, then three
profile reads with defaults age=30, outdoor_hours=4, and the Python
truthiness of `health_conditions` as the ninth 0/1 feature. -/
def vectorize (profile : ProfileDict) (weather : WeatherDict) (aqiData : AqiDict) :
    Except String (List ℚ) := do
  let t ← requireField weather.temperature
  let hi ← requireField weather.heat_index
  let hum ← requireField weather.humidity
  let uv ← requireField weather.uv_index
  let aq ← requireField aqiData.aqi
  let pm ← requireField aqiData.pm2_5
  pure [t, hi, hum, uv, aq, pm,
    profile.age.getD 30,
    profile.outdoor_hours.getD 4,
    if (profile.health_conditions.getD []).isEmpty then 0 else 1]

/-- An advisory, embedded from the dict literals of
`RiskPredictionModel._generate_recommendations`.  The human message and
action texts are abstracted to their category and priority; the daily-water
litre target and drinking-interval numbers that the hydration rule
interpolates into its message are kept as structured fields. -/
structure Advisory where
  category : String
  priority : String
  waterLiters : Option ℚ
  intervalHours : Option ℤ
deriving Repr, DecidableEq

/-- The daily water target of the hydration rule (`ml_model.py` line 194):
`3.5 + (risk_score * 0.3)` liters. -/
def dailyWater (riskScore : ℚ) : ℚ :=
  3.5 + riskScore * 0.3

/-- Recommendation generator, embedded statement by statement from
`RiskPredictionModel._generate_recommendations` (`ml_model.py` lines
171-255): an advisory list grown by seven conditional appends, with the
three dict accesses (`temperature`, `aqi`, `uv_index`) at the positions the
source performs them. -/
def generateRecommendations (riskScore : ℚ) (profile : ProfileDict)
    (weather : WeatherDict) (aqiData : AqiDict) : Except String (List Advisory) := do
  let recs : List Advisory := []
  let temp ← requireField weather.temperature
  let recs :=
    if temp > 40 then recs ++ [⟨"heat", "high", none, none⟩]
    else if temp > 35 then recs ++ [⟨"heat", "medium", none, none⟩]
    else recs
  let recs :=
    if temp > 32 ∨ riskScore > 3 then
      recs ++ [⟨"hydration", "high", some (dailyWater riskScore),
        some (pyInt (12 / dailyWater riskScore))⟩]
    else recs
  let aq ← requireField aqiData.aqi
  let recs :=
    if aq > 200 then recs ++ [⟨"air_quality", "high", none, none⟩]
    else if aq > 100 then recs ++ [⟨"air_quality", "medium", none, none⟩]
    else recs
  let uv ← requireField weather.uv_index
  let recs :=
    if uv > 7 then recs ++ [⟨"uv_protection", "medium", none, none⟩]
    else recs
  let recs :=
    if ¬ (profile.health_conditions.getD []).isEmpty then
      recs ++ [⟨"health", "high", none, none⟩]
    else recs
  let recs :=
    if profile.age.getD 0 > 60 then recs ++ [⟨"health", "high", none, none⟩]
    else recs
  let recs :=
    if riskScore > 7 then recs ++ [⟨"general", "critical", none, none⟩]
    else recs
  pure recs

/-- Rule 1 of the generator, factored out: the heat advisory. -/
def heatRule (temp : ℚ) : List Advisory :=
  if temp > 40 then [⟨"heat", "high", none, none⟩]
  else if temp > 35 then [⟨"heat", "medium", none, none⟩]
  else []

/-- Rule 2 of the generator, factored out: the hydration advisory with its
computed water target and drinking interval. -/
def hydrationRule (riskScore temp : ℚ) : List Advisory :=
  if temp > 32 ∨ riskScore > 3 then
    [⟨"hydration", "high", some (dailyWater riskScore),
      some (pyInt (12 / dailyWater riskScore))⟩]
  else []

/-- Rule 3 of the generator, factored out: the air-quality advisory. -/
def airQualityRule (aq : ℚ) : List Advisory :=
  if aq > 200 then [⟨"air_quality", "high", none, none⟩]
  else if aq > 100 then [⟨"air_quality", "medium", none, none⟩]
  else []

/-- Rule 4 of the generator, factored out: the UV-protection advisory. -/
def uvRule (uv : ℚ) : List Advisory :=
  if uv > 7 then [⟨"uv_protection", "medium", none, none⟩]
  else []

/-- Rule 5 of the generator, factored out: the health-conditions advisory. -/
def healthConditionRule (profile : ProfileDict) : List Advisory :=
  if ¬ (profile.health_conditions.getD []).isEmpty then
    [⟨"health", "high", none, none⟩]
  else []

/-- Rule 6 of the generator, factored out: the elderly-age advisory. -/
def ageRule (profile : ProfileDict) : List Advisory :=
  if profile.age.getD 0 > 60 then [⟨"health", "high", none, none⟩]
  else []

/-- Rule 7 of the generator, factored out: the general very-high-risk
advisory. -/
def generalRule (riskScore : ℚ) : List Advisory :=
  if riskScore > 7 then [⟨"general", "critical", none, none⟩]
  else []

/-- One row of the synthetic training matrix of
`RiskPredictionModel._train_model`: the nine feature columns in their
documented order. -/
structure TrainSample where
  temperature : ℚ
  heat_index : ℚ
  humidity : ℚ
  uv_index : ℚ
  aqi : ℚ
  pm2_5 : ℚ
  age : ℚ
  outdoor_hours : ℚ
  health_condition : ℚ
deriving Repr, DecidableEq

/-- The temperature block of the labelling rule (`ml_model.py` lines
63-69): the amount the `if/elif` chain adds to the accumulator. -/
def tempContribution (s : TrainSample) : ℤ :=
  if s.temperature > 40 then 3
  else if s.temperature > 35 then 2
  else if s.temperature > 32 then 1
  else 0

/-- The AQI block of the labelling rule (`ml_model.py` lines 71-77). -/
def aqiContribution (s : TrainSample) : ℤ :=
  if s.aqi > 300 then 3
  else if s.aqi > 200 then 2
  else if s.aqi > 100 then 1
  else 0

/-- The UV block of the labelling rule (`ml_model.py` lines 79-81). -/
def uvContribution (s : TrainSample) : ℤ :=
  if s.uv_index > 8 then 1 else 0

/-- The age-or-health block of the labelling rule (`ml_model.py` lines
83-85). -/
def ageHealthContribution (s : TrainSample) : ℤ :=
  if s.age > 60 ∨ s.health_condition = 1 then 1 else 0

/-- The outdoor-hours block of the labelling rule (`ml_model.py` lines
87-89). -/
def outdoorContribution (s : TrainSample) : ℤ :=
  if s.outdoor_hours > 6 then 1 else 0

/-- The deterministic labelling rule of `RiskPredictionModel._train_model`
(`ml_model.py` lines 61-89): the accumulator starts at 0 and each of the
five blocks adds its contribution in turn. -/
def riskRuleScore (s : TrainSample) : ℤ :=
  0 + tempContribution s + aqiContribution s + uvContribution s +
    ageHealthContribution s + outdoorContribution s

/-- The label assigned to a sample (`ml_model.py` line 91):
`min(10, risk + perturbation)` where the perturbation is drawn from
the set of integers -1, 0, +1.  The source clips from above only. -/
def trainLabel (s : TrainSample) (perturb : ℤ) : ℤ :=
  min 10 (riskRuleScore s + perturb)

/-- Modelled from the claim and spec wording: the label clipped to the
closed interval [0, 10]; to be compared with `trainLabel`, which the
source clips only from above. -/
def claimedTrainLabel (s : TrainSample) (perturb : ℤ) : ℤ :=
  max 0 (min 10 (riskRuleScore s + perturb))

/-- A training sample in which every rule contribution is zero. -/
def lowSample : TrainSample :=
  ⟨20, 25, 50, 5, 50, 10, 30, 4, 0⟩

/-- An alert, embedded from the dict literals of
`SymptomAnalyzer.analyze_symptoms` (emoji prefixes dropped). -/
structure Alert where
  level : String
  message : String
  action : String
deriving Repr, DecidableEq

/-- One entry of the optional user history: a Python dict read with
`log.get('severity', 0)`, so the severity field may be absent. -/
structure SymptomLog where
  severity : Option ℚ
deriving Repr, DecidableEq

/-- The result record of `SymptomAnalyzer.analyze_symptoms`. -/
structure SymptomAnalysis where
  is_urgent : Bool
  alerts : List Alert
  recommendations : List String
  analysis_timestamp : Option String
deriving Repr, DecidableEq

/-- The fixed severe-symptom list `SymptomAnalyzer.SEVERE_SYMPTOMS`
(`ml_model.py` lines 260-263). -/
def SEVERE_SYMPTOMS : List String :=
  ["chest_pain", "severe_headache", "difficulty_breathing",
   "confusion", "loss_of_consciousness", "severe_nausea"]

/-- Text advisory rules, embedded from
`SymptomAnalyzer._get_symptom_recommendations` (`ml_model.py` lines
325-344). -/
def getSymptomRecommendations (symptoms : List String) (severity : ℚ) :
    List String :=
  let recs : List String := []
  let recs :=
    if symptoms.contains "headache" then
      recs ++ ["Rest in cool, dark room. Stay hydrated"]
    else recs
  let recs :=
    if symptoms.contains "fatigue" ∨ symptoms.contains "dizziness" then
      recs ++ ["Drink water and electrolyte solution. Avoid exertion"]
    else recs
  let recs :=
    if symptoms.contains "breathing_difficulty" then
      recs ++ ["Stay in air-conditioned space. Avoid polluted areas"]
    else recs
  let recs :=
    if symptoms.contains "nausea" then
      recs ++ ["Sip water slowly. Eat light foods. Rest"]
    else recs
  let recs :=
    if severity ≥ 5 then
      recs ++ ["Monitor temperature. Take rest. Stay cool"]
    else recs
  recs

/-- Symptom triage, embedded statement by statement from
`SymptomAnalyzer.analyze_symptoms` (`ml_model.py` lines 265-323): severe
symptom intersection, severity thresholds, history pattern detection, and
the text recommendations.  The Python condition
`user_history and len(user_history) >= 3` is the `Option` match plus the
length test. -/
def analyzeSymptoms (symptoms : List String) (severity : ℚ)
    (userHistory : Option (List SymptomLog)) : SymptomAnalysis :=
  let severeFound := symptoms.filter (fun s => SEVERE_SYMPTOMS.contains s)
  let step1 : Bool × List Alert :=
    if severeFound.isEmpty then (false, [])
    else (true,
      [⟨"critical",
        "URGENT: " ++ String.intercalate ", " severeFound ++ " detected",
        "Seek immediate medical attention"⟩])
  let step2 : Bool × List Alert :=
    if severity ≥ 8 then
      (true, step1.2 ++
        [⟨"high", "High severity symptoms reported",
          "Contact doctor or visit hospital"⟩])
    else if severity ≥ 6 then
      (step1.1, step1.2 ++
        [⟨"medium", "Moderate symptoms detected",
          "Rest and monitor. Consult doctor if worsens"⟩])
    else step1
  let alerts :=
    match userHistory with
    | some history =>
      if history.length ≥ 3 ∧
          (history.take 3).all (fun log => decide ((log.severity.getD 0) ≥ 5)) then
        step2.2 ++
          [⟨"high", "Persistent symptoms detected", "Schedule medical checkup"⟩]
      else step2.2
    | none => step2.2
  { is_urgent := step2.1
    alerts := alerts
    recommendations := getSymptomRecommendations symptoms severity
    analysis_timestamp := none }

/-- `analyze_symptoms` wrapped in the failure-capable return type of the
specification's error taxonomy: the source body contains no raise
statement and no mandatory dict access, so every run returns normally,
which the wrapper records as `Except.ok`. -/
def analyzeSymptomsRun (symptoms : List String) (severity : ℚ)
    (userHistory : Option (List SymptomLog)) : Except String SymptomAnalysis :=
  Except.ok (analyzeSymptoms symptoms severity userHistory)

/-- Helper: the labelling rule only ever adds nonnegative contributions. -/
lemma riskRuleScore_nonneg (s : TrainSample) : 0 ≤ riskRuleScore s := by
  have h1 : 0 ≤ tempContribution s := by
    simp only [tempContribution]; split_ifs <;> omega
  have h2 : 0 ≤ aqiContribution s := by
    simp only [aqiContribution]; split_ifs <;> omega
  have h3 : 0 ≤ uvContribution s := by
    simp only [uvContribution]; split_ifs <;> omega
  have h4 : 0 ≤ ageHealthContribution s := by
    simp only [ageHealthContribution]; split_ifs <;> omega
  have h5 : 0 ≤ outdoorContribution s := by
    simp only [outdoorContribution]; split_ifs <;> omega
  simp only [riskRuleScore]
  omega

/-- Helper: Python truncation agrees with the floor on nonnegative values. -/
lemma pyInt_eq_floor (x : ℚ) (hx : 0 ≤ x) : pyInt x = Int.floor x := by
  simp [pyInt, hx]

/-- C3: for every temperature and humidity, the heat-index calculator
returns the temperature unchanged below 27 degrees and otherwise the
nine-term Rothfusz regression polynomial with the fixed spec coefficients,
rounded to one decimal place; it is a total (pure, error-free) function. -/
theorem heat_index_matches_spec (T H : ℚ) :
    calculateHeatIndex T H = if T < 27 then T else round1 (rothfuszPoly T H) := by
  simp only [calculateHeatIndex, rothfuszPoly]
  split
  · rfl
  · congr 1
    ring

/-- C2: on the risk-score domain [0, 10], the severity banding maps
scores at most 2 to Low, (2, 5] to Moderate, (5, 7] to High, and
above 7 to Very High, with exact boundaries. -/
theorem severity_banding_exact (s : ℚ) (h0 : 0 ≤ s) (h10 : s ≤ 10) :
    (s ≤ 2 → getSeverityLevel s = "Low") ∧
    (2 < s → s ≤ 5 → getSeverityLevel s = "Moderate") ∧
    (5 < s → s ≤ 7 → getSeverityLevel s = "High") ∧
    (7 < s → getSeverityLevel s = "Very High") := by
  simp only [getSeverityLevel]
  refine ⟨?_, ?_, ?_, ?_⟩ <;> intros <;> split_ifs <;> first | rfl | linarith

/-- C2 witness: the four bands at the concrete scores 1, 3, 6, 9. -/
theorem severity_banding_exact_check :
    getSeverityLevel 1 = "Low" ∧ getSeverityLevel 3 = "Moderate" ∧
    getSeverityLevel 6 = "High" ∧ getSeverityLevel 9 = "Very High" :=
  ⟨(severity_banding_exact 1 (by norm_num) (by norm_num)).1 (by norm_num),
   (severity_banding_exact 3 (by norm_num) (by norm_num)).2.1 (by norm_num) (by norm_num),
   (severity_banding_exact 6 (by norm_num) (by norm_num)).2.2.1 (by norm_num) (by norm_num),
   (severity_banding_exact 9 (by norm_num) (by norm_num)).2.2.2 (by norm_num)⟩

/-- C6 counterexample: the all-low sample with perturbation -1 receives
the label -1, while the clipped-to-[0,10] label the claim describes would
be 0; the source clips from above only. -/
theorem train_label_not_clipped_below :
    trainLabel lowSample (-1) = -1 ∧ claimedTrainLabel lowSample (-1) = 0 ∧
    trainLabel lowSample (-1) ≠ claimedTrainLabel lowSample (-1) := by
  decide

/-- C6 amended: every sample's label equals the deterministic rule score
plus the perturbation, clipped from above at 10 only; with a perturbation
in the set of integers -1, 0, +1 the label therefore lies in [-1, 10]. -/
theorem train_label_amended (s : TrainSample) (p : ℤ)
    (hp1 : -1 ≤ p) (hp2 : p ≤ 1) :
    trainLabel s p = min 10 (riskRuleScore s + p) ∧
    -1 ≤ trainLabel s p ∧ trainLabel s p ≤ 10 := by
  have h := riskRuleScore_nonneg s
  refine ⟨rfl, ?_, ?_⟩
  · exact le_min (by norm_num) (by linarith)
  · exact min_le_left _ _

/-- C6 amended witness: the all-low sample with perturbation -1. -/
theorem train_label_amended_check :
    trainLabel lowSample (-1) = min 10 (riskRuleScore lowSample + (-1)) ∧
    -1 ≤ trainLabel lowSample (-1) ∧ trainLabel lowSample (-1) ≤ 10 :=
  train_label_amended lowSample (-1) (by decide) (by decide)

/-- C8 counterexample: at severity 0 (outside 1..10) the analyzer does
not fail with a ValidationError: the run returns normally, because the
source performs no severity-range validation at all. -/
theorem analyze_symptoms_no_validation :
    (0 : ℚ) < 1 ∧ (analyzeSymptomsRun [] 0 none).isOk = true :=
  ⟨by norm_num, rfl⟩

/-- C8 amended: the analyzer never fails for any severity, inside or
outside 1..10; unmatched rules simply produce an empty or partial
alert and recommendation list. -/
theorem analyze_symptoms_never_fails (symptoms : List String) (severity : ℚ)
    (userHistory : Option (List SymptomLog)) :
    (analyzeSymptomsRun symptoms severity userHistory).isOk = true :=
  rfl

/-- C10: every training label lies in [-1, 10], and for every risk score
at least -1 the hydration divisor dailyWater is at least 3.2 and in
particular strictly positive, so the drinking-interval division never
divides by zero. -/
theorem hydration_divisor_positive (s : TrainSample) (p : ℤ) (r : ℚ)
    (hp1 : -1 ≤ p) (hp2 : p ≤ 1) (hr : -1 ≤ r) :
    (-1 ≤ trainLabel s p ∧ trainLabel s p ≤ 10) ∧
    ((3.2 : ℚ) ≤ dailyWater r ∧ 0 < dailyWater r) := by
  have h := riskRuleScore_nonneg s
  refine ⟨⟨?_, ?_⟩, ?_, ?_⟩
  · exact le_min (by norm_num) (by linarith)
  · exact min_le_left _ _
  · simp only [dailyWater]; nlinarith
  · simp only [dailyWater]; nlinarith

/-- C10 witness: the all-low sample with zero perturbation and risk 0. -/
theorem hydration_divisor_positive_check :
    ((-1 ≤ trainLabel lowSample 0 ∧ trainLabel lowSample 0 ≤ 10) ∧
     ((3.2 : ℚ) ≤ dailyWater 0 ∧ 0 < dailyWater 0)) :=
  hydration_divisor_positive lowSample 0 0 (by decide) (by decide) (by norm_num)

/-- C9: vectorization fails exactly when one of the six required weather
or air-quality fields is missing; with all six present it succeeds with
the length-9 feature vector in the documented order, missing profile
fields falling back to age 30, outdoor hours 4, and no health conditions;
and every successful result has length 9. -/
theorem vectorize_fields_and_defaults (p : ProfileDict) (w : WeatherDict) (a : AqiDict) :
    ((vectorize p w a).isOk = false ↔
      (w.temperature = none ∨ w.heat_index = none ∨ w.humidity = none ∨
       w.uv_index = none ∨ a.aqi = none ∨ a.pm2_5 = none)) ∧
    (∀ t hi hum uv aq pm, w.temperature = some t → w.heat_index = some hi →
      w.humidity = some hum → w.uv_index = some uv → a.aqi = some aq →
      a.pm2_5 = some pm →
      vectorize p w a = Except.ok [t, hi, hum, uv, aq, pm, p.age.getD 30,
        p.outdoor_hours.getD 4,
        if (p.health_conditions.getD []).isEmpty then 0 else 1]) ∧
    (∀ v, vectorize p w a = Except.ok v → v.length = 9) := by
  obtain ⟨wt, whi, whum, wuv⟩ := w
  obtain ⟨aaqi, apm⟩ := a
  cases wt <;> cases whi <;> cases whum <;> cases wuv <;> cases aaqi <;> cases apm <;>
    simp [vectorize, requireField, Except.isOk, Except.toBool, Bind.bind,
      Except.bind, pure, Except.pure] <;>
    tauto

/-- C9 witness: a fully-formed reading with an empty profile takes the
documented defaults and yields the nine features in order. -/
theorem vectorize_fields_and_defaults_check :
    vectorize ⟨none, none, none⟩ ⟨some 30, some 32, some 50, some 5⟩
        ⟨some 80, some 20⟩ =
      Except.ok [30, 32, 50, 5, 80, 20, 30, 4, 0] := by
  have h := (vectorize_fields_and_defaults ⟨none, none, none⟩
    ⟨some 30, some 32, some 50, some 5⟩ ⟨some 80, some 20⟩).2.1
    30 32 50 5 80 20 rfl rfl rfl rfl rfl rfl
  simpa using h

/-- C1: for every symptom list, severity in 1..10 and optional history,
the analyzer flags urgency exactly when the symptom list meets the fixed
severe-symptom set or the severity is at least 8; neither the medium
severity alert nor the persistent-symptoms history alert sets the flag. -/
theorem symptom_urgency_iff (symptoms : List String) (severity : ℚ)
    (userHistory : Option (List SymptomLog))
    (hlo : 1 ≤ severity) (hhi : severity ≤ 10) :
    (analyzeSymptoms symptoms severity userHistory).is_urgent = true ↔
      ((∃ s ∈ symptoms, s ∈ SEVERE_SYMPTOMS) ∨ 8 ≤ severity) := by
  have hbridge : ((symptoms.filter fun s => SEVERE_SYMPTOMS.contains s).isEmpty = true ↔
      ¬ ∃ s ∈ symptoms, s ∈ SEVERE_SYMPTOMS) := by
    simp [List.isEmpty_iff, List.filter_eq_nil_iff, List.contains, List.elem_iff]
  simp only [analyzeSymptoms]
  split_ifs <;> simp_all

/-- C1 witness: a single severe symptom at severity 5 already flags
urgency. -/
theorem symptom_urgency_iff_check :
    (analyzeSymptoms ["chest_pain"] 5 none).is_urgent = true :=
  (symptom_urgency_iff ["chest_pain"] 5 none (by norm_num) (by norm_num)).mpr
    (Or.inl ⟨"chest_pain", by simp [SEVERE_SYMPTOMS]⟩)

/-- Helper: appending under a conditional commutes with the conditional. -/
lemma append_ite1 {α : Type} (c : Prop) [Decidable c] (recs l : List α) :
    (if c then recs ++ l else recs) = recs ++ (if c then l else []) := by
  split <;> simp

/-- Helper: appending under a two-way conditional chain commutes with it. -/
lemma append_ite2 {α : Type} (c1 c2 : Prop) [Decidable c1] [Decidable c2]
    (recs l1 l2 : List α) :
    (if c1 then recs ++ l1 else if c2 then recs ++ l2 else recs) =
      recs ++ (if c1 then l1 else if c2 then l2 else []) := by
  split_ifs <;> simp

/-- Helper: on fully-formed readings the generator is the concatenation of
its seven rules in source order. -/
lemma generateRecommendations_decomposed (risk : ℚ) (p : ProfileDict)
    (t hi hum uv aq pm : ℚ) :
    generateRecommendations risk p ⟨some t, some hi, some hum, some uv⟩
        ⟨some aq, some pm⟩ =
      Except.ok (heatRule t ++ hydrationRule risk t ++ airQualityRule aq ++
        uvRule uv ++ healthConditionRule p ++ ageRule p ++ generalRule risk) := by
  simp only [generateRecommendations, requireField, Bind.bind, Except.bind]
  rw [append_ite1, append_ite1, append_ite1, append_ite1, append_ite2,
    append_ite1, append_ite2]
  simp [heatRule, hydrationRule, airQualityRule, uvRule, healthConditionRule,
    ageRule, generalRule, pure, Except.pure]

/-- C4: on fully-formed readings the generator evaluates its seven rules
in the fixed order heat, hydration, air quality, UV protection, health
conditions, age, general; each rule contributes at most one advisory and
no rule alters the output of another; the above-40-degrees heat advisory
carries priority high and the risk-above-7 general advisory carries
priority critical. -/
theorem recommendation_rule_order (risk : ℚ) (p : ProfileDict) (w : WeatherDict)
    (a : AqiDict) (t hi hum uv aq pm : ℚ)
    (hw : w = ⟨some t, some hi, some hum, some uv⟩) (ha : a = ⟨some aq, some pm⟩) :
    generateRecommendations risk p w a =
      Except.ok (heatRule t ++ hydrationRule risk t ++ airQualityRule aq ++
        uvRule uv ++ healthConditionRule p ++ ageRule p ++ generalRule risk) ∧
    ((heatRule t).length ≤ 1 ∧ (hydrationRule risk t).length ≤ 1 ∧
     (airQualityRule aq).length ≤ 1 ∧ (uvRule uv).length ≤ 1 ∧
     (healthConditionRule p).length ≤ 1 ∧ (ageRule p).length ≤ 1 ∧
     (generalRule risk).length ≤ 1) ∧
    (t > 40 → heatRule t = [⟨"heat", "high", none, none⟩]) ∧
    (risk > 7 → generalRule risk = [⟨"general", "critical", none, none⟩]) := by
  subst hw ha
  refine ⟨generateRecommendations_decomposed risk p t hi hum uv aq pm,
    ⟨?_, ?_, ?_, ?_, ?_, ?_, ?_⟩, ?_, ?_⟩ <;>
    first
      | (intro h;
         simp only [heatRule, generalRule];
         split_ifs <;> rfl)
      | (simp only [heatRule, hydrationRule, airQualityRule, uvRule,
          healthConditionRule, ageRule, generalRule];
         split_ifs <;> simp)

/-- C4 witness: the spec section 8 scenario (temperature 42, AQI 220,
UV 9, age 65, health conditions present, risk 8). -/
theorem recommendation_rule_order_check :
    generateRecommendations 8 ⟨some 65, some 4, some ["asthma"]⟩
        ⟨some 42, some 48, some 70, some 9⟩ ⟨some 220, some 95⟩ =
      Except.ok (heatRule 42 ++ hydrationRule 8 42 ++ airQualityRule 220 ++
        uvRule 9 ++ healthConditionRule ⟨some 65, some 4, some ["asthma"]⟩ ++
        ageRule ⟨some 65, some 4, some ["asthma"]⟩ ++ generalRule 8) ∧
    ((heatRule 42).length ≤ 1 ∧ (hydrationRule 8 42).length ≤ 1 ∧
     (airQualityRule 220).length ≤ 1 ∧ (uvRule 9).length ≤ 1 ∧
     (healthConditionRule ⟨some 65, some 4, some ["asthma"]⟩).length ≤ 1 ∧
     (ageRule ⟨some 65, some 4, some ["asthma"]⟩).length ≤ 1 ∧
     (generalRule 8).length ≤ 1) ∧
    ((42 : ℚ) > 40 → heatRule 42 = [⟨"heat", "high", none, none⟩]) ∧
    ((8 : ℚ) > 7 → generalRule 8 = [⟨"general", "critical", none, none⟩]) :=
  recommendation_rule_order 8 ⟨some 65, some 4, some ["asthma"]⟩
    ⟨some 42, some 48, some 70, some 9⟩ ⟨some 220, some 95⟩
    42 48 70 9 220 95 rfl rfl

/-- C5: on fully-formed readings the hydration advisory is emitted exactly
when the temperature exceeds 32 or the risk score exceeds 3, and it
carries priority high, the daily water target 3.5 + 0.3 times the risk
score in liters, and the interval hint floor of 12 divided by that
target (the risk score being at least -1, the smallest label the
classifier is trained on). -/
theorem hydration_advisory_exact (risk : ℚ) (p : ProfileDict) (w : WeatherDict)
    (a : AqiDict) (t hi hum uv aq pm : ℚ) (recs : List Advisory)
    (hw : w = ⟨some t, some hi, some hum, some uv⟩) (ha : a = ⟨some aq, some pm⟩)
    (hr : -1 ≤ risk)
    (hrecs : generateRecommendations risk p w a = Except.ok recs) :
    ((∃ adv ∈ recs, adv.category = "hydration") ↔ (t > 32 ∨ risk > 3)) ∧
    (∀ adv ∈ recs, adv.category = "hydration" →
      adv.priority = "high" ∧
      adv.waterLiters = some (3.5 + 0.3 * risk) ∧
      adv.intervalHours = some (Int.floor (12 / (3.5 + 0.3 * risk)))) := by
  subst hw ha
  rw [generateRecommendations_decomposed] at hrecs
  injection hrecs with hrecs
  subst hrecs
  have hpos : (0 : ℚ) < 3.5 + 0.3 * risk := by linarith
  have hdw_eq : dailyWater risk = 3.5 + 0.3 * risk := by
    simp only [dailyWater]; ring
  have hpy : pyInt (12 / dailyWater risk) =
      Int.floor (12 / (3.5 + 0.3 * risk)) := by
    rw [hdw_eq]
    exact pyInt_eq_floor _ (div_nonneg (by norm_num) hpos.le)
  have hheat : ∀ adv ∈ heatRule t, adv.category = "heat" := by
    intro adv hmem
    simp only [heatRule] at hmem
    split_ifs at hmem <;> simp at hmem <;> simp [hmem]
  have hair : ∀ adv ∈ airQualityRule aq, adv.category = "air_quality" := by
    intro adv hmem
    simp only [airQualityRule] at hmem
    split_ifs at hmem <;> simp at hmem <;> simp [hmem]
  have huv : ∀ adv ∈ uvRule uv, adv.category = "uv_protection" := by
    intro adv hmem
    simp only [uvRule] at hmem
    split_ifs at hmem <;> simp at hmem <;> simp [hmem]
  have hhc : ∀ adv ∈ healthConditionRule p, adv.category = "health" := by
    intro adv hmem
    simp only [healthConditionRule] at hmem
    split_ifs at hmem <;> simp at hmem <;> simp [hmem]
  have hage : ∀ adv ∈ ageRule p, adv.category = "health" := by
    intro adv hmem
    simp only [ageRule] at hmem
    split_ifs at hmem <;> simp at hmem <;> simp [hmem]
  have hgen : ∀ adv ∈ generalRule risk, adv.category = "general" := by
    intro adv hmem
    simp only [generalRule] at hmem
    split_ifs at hmem <;> simp at hmem <;> simp [hmem]
  have hhyd : ∀ adv ∈ hydrationRule risk t,
      adv.category = "hydration" ∧ adv.priority = "high" ∧
      adv.waterLiters = some (dailyWater risk) ∧
      adv.intervalHours = some (pyInt (12 / dailyWater risk)) := by
    intro adv hmem
    simp only [hydrationRule] at hmem
    split_ifs at hmem <;> simp at hmem <;> simp [hmem]
  constructor
  · constructor
    · rintro ⟨adv, hmem, hcat⟩
      simp only [List.mem_append] at hmem
      rcases hmem with ((((((h | h) | h) | h) | h) | h) | h)
      · exact absurd hcat (by rw [hheat adv h]; decide)
      · simp only [hydrationRule] at h
        split_ifs at h with hfire
        · exact hfire
        · simp at h
      · exact absurd hcat (by rw [hair adv h]; decide)
      · exact absurd hcat (by rw [huv adv h]; decide)
      · exact absurd hcat (by rw [hhc adv h]; decide)
      · exact absurd hcat (by rw [hage adv h]; decide)
      · exact absurd hcat (by rw [hgen adv h]; decide)
    · intro hfire
      refine ⟨⟨"hydration", "high", some (dailyWater risk),
        some (pyInt (12 / dailyWater risk))⟩, ?_, rfl⟩
      have hx : (⟨"hydration", "high", some (dailyWater risk),
          some (pyInt (12 / dailyWater risk))⟩ : Advisory) ∈
          hydrationRule risk t := by
        simp [hydrationRule, hfire]
      simp only [List.mem_append]
      tauto
  · intro adv hmem hcat
    simp only [List.mem_append] at hmem
    rcases hmem with ((((((h | h) | h) | h) | h) | h) | h)
    · exact absurd hcat (by rw [hheat adv h]; decide)
    · obtain ⟨-, hp2, hw2, hi2⟩ := hhyd adv h
      exact ⟨hp2, by rw [hw2, hdw_eq], by rw [hi2, hpy]⟩
    · exact absurd hcat (by rw [hair adv h]; decide)
    · exact absurd hcat (by rw [huv adv h]; decide)
    · exact absurd hcat (by rw [hhc adv h]; decide)
    · exact absurd hcat (by rw [hage adv h]; decide)
    · exact absurd hcat (by rw [hgen adv h]; decide)

/-- C5 witness: the concrete scenario with temperature 42 and risk 8
fires the hydration rule with water target 5.9 liters. -/
theorem hydration_advisory_exact_check :
    ((∃ adv ∈ (heatRule 42 ++ hydrationRule 8 42 ++ airQualityRule 220 ++
        uvRule 9 ++ healthConditionRule ⟨some 65, some 4, some ["asthma"]⟩ ++
        ageRule ⟨some 65, some 4, some ["asthma"]⟩ ++ generalRule 8),
        adv.category = "hydration") ↔ ((42 : ℚ) > 32 ∨ (8 : ℚ) > 3)) ∧
    (∀ adv ∈ (heatRule 42 ++ hydrationRule 8 42 ++ airQualityRule 220 ++
        uvRule 9 ++ healthConditionRule ⟨some 65, some 4, some ["asthma"]⟩ ++
        ageRule ⟨some 65, some 4, some ["asthma"]⟩ ++ generalRule 8),
        adv.category = "hydration" →
      adv.priority = "high" ∧
      adv.waterLiters = some (3.5 + 0.3 * 8) ∧
      adv.intervalHours = some (Int.floor ((12 : ℚ) / (3.5 + 0.3 * 8)))) :=
  hydration_advisory_exact 8 ⟨some 65, some 4, some ["asthma"]⟩
    ⟨some 42, some 48, some 70, some 9⟩ ⟨some 220, some 95⟩
    42 48 70 9 220 95 _ rfl rfl (by norm_num)
    (generateRecommendations_decomposed 8 ⟨some 65, some 4, some ["asthma"]⟩
      42 48 70 9 220 95)

end HeatShield
